import Mathlib

/-!
Verification of the serial-port core (`serial.go`): the configuration
record, the normalization performed by `OpenPort`, and the distinguished
error values.  The Go source keeps the platform backend (`openPort`) and
the `Config` struct declaration in platform-specific files; here the
backend is a parameter and the record is modelled from the spec, while
the normalization logic itself is transcribed from `OpenPort`.
-/

namespace Serial

/-- Modelled from the spec: the `Config` record.  Its Go struct
declaration lives in the platform files, not in the provided source;
the fields follow the usage in `OpenPort` (`c.Size`, `c.Parity`,
`c.StopBits`, `c.timeout`) and the spec's data model (`name`, `baud`,
`dataSize`, `parity`, `stopBits`, `readTimeout`).  `Size`, `Parity`
and `StopBits` are byte-valued in Go, modelled as `Nat`; `Baud` is a
Go `int` and `timeout` a `time.Duration` (an `int64`), both modelled
as `Int`. -/
structure Config where
  Name : String
  Baud : Int
  Size : Nat
  Parity : Nat
  StopBits : Nat
  timeout : Int
deriving Repr, DecidableEq

/-- Modelled from the spec: the default data size filled in for the
zero sentinel; the spec fixes it to 8 bits. -/
def DefaultSize : Nat := 8

/-- Modelled from the spec: the `ParityNone` enumerand.  The spec fixes
only that the parity enumerands are distinct and that the zero sentinel
is never a legitimate parity, so a nonzero numeral is chosen. -/
def ParityNone : Nat := 1

/-- Modelled from the spec: the `ParityOdd` enumerand (distinct,
nonzero). -/
def ParityOdd : Nat := 2

/-- Modelled from the spec: the `ParityEven` enumerand (distinct,
nonzero). -/
def ParityEven : Nat := 3

/-- Modelled from the spec: the `Stop1` enumerand, the one-stop-bit
setting; the spec states `stopBits == 1` after defaulting. -/
def Stop1 : Nat := 1

/-- Modelled from the spec: the maximum representable read timeout
(a Go `time.Duration` is an `int64` count of nanoseconds, so its
maximum is `2^63 - 1`); it means "block indefinitely on read". -/
def MaxTimeout : Int := 2 ^ 63 - 1

/-- The error values from `serial.go`, modelled by their message
strings (`errors.New` wraps exactly this string). -/
def ErrNotSupported : String := "serial: not supported"

/-- `ErrBadSize` is returned if `Size` is not supported. -/
def ErrBadSize : String := "serial: unsupported serial data size"

/-- `ErrBadStopBits` is returned if the `StopBits` setting is not
supported. -/
def ErrBadStopBits : String := "serial: unsupported stop bit setting"

/-- `ErrBadParity` is returned if the parity is not supported. -/
def ErrBadParity : String := "serial: unsupported parity setting"

/-- `ErrInvalidArg` from `serial.go`. -/
def ErrInvalidArg : String := "serial: invalid argument"

/-- The normalization performed by the body of `OpenPort` on its local
copy of the configuration (lines 89 to 101 of `serial.go`): each of the
three optional fields is replaced by its default when it is the zero
sentinel, and the timeout is forced to `MaxTimeout`. -/
def normalizeConfig (c : Config) : Config :=
  let c1 := if c.Size = 0 then { c with Size := DefaultSize } else c
  let c2 := if c1.Parity = 0 then { c1 with Parity := ParityNone } else c1
  let c3 := if c2.StopBits = 0 then { c2 with StopBits := Stop1 } else c2
  { c3 with timeout := MaxTimeout }

/-- `OpenPort` opens a serial port with the specified configuration:
it normalizes the record and dispatches to the platform backend
`openPort`, which is an external collaborator and is therefore a
parameter here.  `Except E P` models the Go pair `(Port, error)`. -/
def OpenPort {P E : Type} (openPort : Config → Except E P) (c : Config) :
    Except E P :=
  openPort (normalizeConfig c)

/-- A call to `OpenPort` as seen from the caller.  Go passes `Config`
by value (`func OpenPort(c Config)`), so the callee works on a copy:
the pair returned here is the caller's record after the call together
with the call's result. -/
def OpenPortCall {P E : Type} (openPort : Config → Except E P)
    (caller : Config) : Config × Except E P :=
  (caller, OpenPort openPort caller)

/-- A sample configuration used by the witness theorems: all three
optional fields unset (zero sentinel). -/
def cfgUnset : Config :=
  { Name := "COM5", Baud := 115200, Size := 0, Parity := 0,
    StopBits := 0, timeout := 0 }

/-- A sample configuration with all three optional fields explicitly
set to nonzero values. -/
def cfgSet : Config :=
  { Name := "/dev/ttyS0", Baud := 9600, Size := 7, Parity := ParityEven,
    StopBits := 2, timeout := 5 }

theorem normalize_size (c : Config) :
    (normalizeConfig c).Size = if c.Size = 0 then DefaultSize else c.Size := by
  unfold normalizeConfig
  by_cases h1 : c.Size = 0 <;> by_cases h2 : c.Parity = 0 <;> simp [h1, h2] <;>
    split <;> rfl

theorem normalize_parity (c : Config) :
    (normalizeConfig c).Parity =
      if c.Parity = 0 then ParityNone else c.Parity := by
  unfold normalizeConfig
  by_cases h1 : c.Size = 0 <;> by_cases h2 : c.Parity = 0 <;> simp [h1, h2] <;>
    split <;> rfl

theorem normalize_stopBits (c : Config) :
    (normalizeConfig c).StopBits =
      if c.StopBits = 0 then Stop1 else c.StopBits := by
  unfold normalizeConfig
  by_cases h1 : c.Size = 0 <;> by_cases h2 : c.Parity = 0 <;> simp [h1, h2] <;>
    split <;> rfl

theorem normalize_name (c : Config) : (normalizeConfig c).Name = c.Name := by
  unfold normalizeConfig
  by_cases h1 : c.Size = 0 <;> by_cases h2 : c.Parity = 0 <;> simp [h1, h2] <;>
    split <;> rfl

theorem normalize_baud (c : Config) : (normalizeConfig c).Baud = c.Baud := by
  unfold normalizeConfig
  by_cases h1 : c.Size = 0 <;> by_cases h2 : c.Parity = 0 <;> simp [h1, h2] <;>
    split <;> rfl

theorem normalize_timeout (c : Config) :
    (normalizeConfig c).timeout = MaxTimeout := by
  unfold normalizeConfig
  rfl

theorem normalize_size_ne (c : Config) : (normalizeConfig c).Size ≠ 0 := by
  rw [normalize_size]
  split
  · decide
  · assumption

theorem normalize_parity_ne (c : Config) : (normalizeConfig c).Parity ≠ 0 := by
  rw [normalize_parity]
  split
  · decide
  · assumption

theorem normalize_stopBits_ne (c : Config) :
    (normalizeConfig c).StopBits ≠ 0 := by
  rw [normalize_stopBits]
  split
  · decide
  · assumption

theorem config_ext (a b : Config) (hn : a.Name = b.Name)
    (hb : a.Baud = b.Baud) (hs : a.Size = b.Size) (hp : a.Parity = b.Parity)
    (hst : a.StopBits = b.StopBits) (ht : a.timeout = b.timeout) : a = b := by
  cases a
  cases b
  simp_all

/-- C1: for every configuration whose `Size`, `Parity` and `StopBits`
are the zero sentinel, the configuration produced by the normalization
in `OpenPort` has `Size = 8`, `Parity = ParityNone` and
`StopBits = 1`. -/
theorem claim1_defaults_filled (c : Config) (hs : c.Size = 0)
    (hp : c.Parity = 0) (hb : c.StopBits = 0) :
    (normalizeConfig c).Size = 8 ∧
      (normalizeConfig c).Parity = ParityNone ∧
      (normalizeConfig c).StopBits = 1 := by
  refine ⟨?_, ?_, ?_⟩
  · rw [normalize_size, if_pos hs]; rfl
  · rw [normalize_parity, if_pos hp]
  · rw [normalize_stopBits, if_pos hb]; rfl

/-- C1 witness: the defaults on a concrete all-unset configuration. -/
theorem claim1_defaults_filled_witness :
    (normalizeConfig cfgUnset).Size = 8 ∧
      (normalizeConfig cfgUnset).Parity = ParityNone ∧
      (normalizeConfig cfgUnset).StopBits = 1 :=
  claim1_defaults_filled cfgUnset rfl rfl rfl

/-- C2: normalization leaves any explicitly set (nonzero) value of
`Size`, `Parity` or `StopBits` unchanged. -/
theorem claim2_set_fields_kept (c : Config) :
    (c.Size ≠ 0 → (normalizeConfig c).Size = c.Size) ∧
      (c.Parity ≠ 0 → (normalizeConfig c).Parity = c.Parity) ∧
      (c.StopBits ≠ 0 → (normalizeConfig c).StopBits = c.StopBits) := by
  refine ⟨fun hs => ?_, fun hp => ?_, fun hb => ?_⟩
  · rw [normalize_size, if_neg hs]
  · rw [normalize_parity, if_neg hp]
  · rw [normalize_stopBits, if_neg hb]

/-- C2 witness: all three fields kept on a concrete configuration with
explicitly set values. -/
theorem claim2_set_fields_kept_witness :
    (normalizeConfig cfgSet).Size = cfgSet.Size ∧
      (normalizeConfig cfgSet).Parity = cfgSet.Parity ∧
      (normalizeConfig cfgSet).StopBits = cfgSet.StopBits :=
  ⟨(claim2_set_fields_kept cfgSet).1 (by decide),
    (claim2_set_fields_kept cfgSet).2.1 (by decide),
    (claim2_set_fields_kept cfgSet).2.2 (by decide)⟩

/-- C3: after normalization the fields `Size`, `Parity` and `StopBits`
each hold a nonzero value, never the zero sentinel, in the record
handed to the backend. -/
theorem claim3_no_sentinel_after (c : Config) :
    (normalizeConfig c).Size ≠ 0 ∧ (normalizeConfig c).Parity ≠ 0 ∧
      (normalizeConfig c).StopBits ≠ 0 :=
  ⟨normalize_size_ne c, normalize_parity_ne c, normalize_stopBits_ne c⟩

/-- C4: normalization passes `Name` and `Baud` through unchanged; no
default is substituted for either, including when `Baud` is zero. -/
theorem claim4_name_baud_untouched (c : Config) :
    (normalizeConfig c).Name = c.Name ∧ (normalizeConfig c).Baud = c.Baud :=
  ⟨normalize_name c, normalize_baud c⟩

/-- C5: whatever value the caller's record carried, the `timeout` field
of the configuration handed to the backend equals `MaxTimeout`. -/
theorem claim5_timeout_forced (c : Config) :
    (normalizeConfig c).timeout = MaxTimeout :=
  normalize_timeout c

/-- C6: normalization is a total function and cannot fail, so every
error `OpenPort` returns originates from the backend: if the backend
succeeds on every configuration then `OpenPort` succeeds on every
configuration. -/
theorem claim6_errors_from_backend {P E : Type}
    (openPort : Config → Except E P) (c : Config)
    (hok : ∀ c2, ∃ p, openPort c2 = Except.ok p) :
    ∃ p, OpenPort openPort c = Except.ok p :=
  hok (normalizeConfig c)

/-- C6 witness: with a concrete always-succeeding backend, `OpenPort`
succeeds on a concrete configuration. -/
theorem claim6_errors_from_backend_witness :
    ∃ p, OpenPort (fun _ => (Except.ok 0 : Except String Nat)) cfgUnset =
      Except.ok p :=
  claim6_errors_from_backend (fun _ => (Except.ok 0 : Except String Nat))
    cfgUnset (fun _ => ⟨0, rfl⟩)

/-- C7: the five distinguished error values of the core are pairwise
distinct. -/
theorem claim7_errors_distinct :
    [ErrNotSupported, ErrBadSize, ErrBadStopBits, ErrBadParity,
      ErrInvalidArg].Nodup := by
  decide

/-- C9: normalization is idempotent; applying the default-filling and
timeout-forcing step twice equals applying it once. -/
theorem claim9_normalize_idempotent (c : Config) :
    normalizeConfig (normalizeConfig c) = normalizeConfig c := by
  apply config_ext
  · rw [normalize_name]
  · rw [normalize_baud]
  · rw [normalize_size, if_neg (normalize_size_ne c)]
  · rw [normalize_parity, if_neg (normalize_parity_ne c)]
  · rw [normalize_stopBits, if_neg (normalize_stopBits_ne c)]
  · rw [normalize_timeout, normalize_timeout]

/-- C10: `OpenPort` receives the configuration by value, so the
caller-visible record after the call equals the record before it, for
every backend and every configuration. -/
theorem claim10_caller_config_unchanged {P E : Type}
    (openPort : Config → Except E P) (c : Config) :
    (OpenPortCall openPort c).1 = c :=
  rfl

end Serial
